import Mathlib

/-!
Shallow embedding of `saleor/graphql/product/types.py` and
`saleor/payment/__init__.py` (catalog query resolvers, category ancestor
cache, payment vocabulary), together with theorems about the spec's
testable properties.

Backing-store entities (Django models) are embedded as plain structures
over `Nat` identifiers; querysets become lists; fallible lookups become
`Option`/`Except`.  External collaborators (the visibility policy, the
image-cropping helper) are function parameters.  Repository code that is
referenced but not part of the excerpt (`CategoryAncestorsCache`,
mptt tree helpers, the prefetch cost contract) is modelled from the spec
and marked as such.
-/

namespace Saleor

/-- A category row of the backing store: a node of the category tree,
identified by its primary key, with an optional parent primary key. -/
structure Category where
  id : Nat
  parent : Option Nat
  deriving DecidableEq, Repr

/-- Fuel-bounded walk up the parent chain, producing the ancestors in
root-to-parent order.  `Modelled from the spec:` mptt's
`category.get_ancestors()` is not part of the excerpt; the spec defines the
ancestor chain as the ordered sequence from the root category down to
(excluding) the category itself. -/
def ancestorsAux (store : List Category) : Nat → Option Nat → List Category
  | 0, _ => []
  | _, none => []
  | fuel + 1, some pid =>
    match store.find? (fun c => c.id = pid) with
    | none => []
    | some p => ancestorsAux store fuel p.parent ++ [p]

/-- Direct, uncached ancestor traversal of the backing store
(`category.get_ancestors()`), root-first, excluding the category itself. -/
def get_ancestors (store : List Category) (c : Category) : List Category :=
  ancestorsAux store store.length c.parent

/-- `Modelled from the spec:` mptt's
`get_descendants(include_self=True)` is not part of the excerpt; the spec
calls it the category's full descendant-inclusive subtree (self included).
A category belongs to the subtree of `rootId` iff it is the root itself or
the root occurs on its ancestor chain. -/
def subtree (store : List Category) (rootId : Nat) : List Category :=
  store.filter (fun c => c.id = rootId || (get_ancestors store c).any (fun a => a.id = rootId))

/-- `Modelled from the spec:` `CategoryAncestorsCache`
(`saleor/graphql/utils.py`, not in the excerpt) — the request-scoped
mapping from category to its precomputed ordered ancestor chain, built for
every node of the resolved subtree. -/
structure AncestorsCache where
  entries : List (Nat × List Category)
  deriving DecidableEq, Repr

/-- `Modelled from the spec:` `CategoryAncestorsCache.get(category)` — returns
the cached ancestor sequence when the cache contains that category and
otherwise falls back to a direct (uncached) ancestor traversal against the
backing store. -/
def AncestorsCache.get (store : List Category) (ac : AncestorsCache) (c : Category) :
    List Category :=
  match ac.entries.lookup c.id with
  | some chain => chain
  | none => get_ancestors store c

/-- `Modelled from the spec:` construction `CategoryAncestorsCache(category)`
builds an ancestor cache for every node in the descendant-inclusive subtree
of the resolved category. -/
def categoryAncestorsCache (store : List Category) (category : Category) : AncestorsCache :=
  ⟨(subtree store category.id).map (fun c => (c.id, get_ancestors store c))⟩

/-- `CONTEXT_CACHE_NAME = '__cache__'` -/
def CONTEXT_CACHE_NAME : String := "__cache__"

/-- `CACHE_ANCESTORS = 'ancestors'` -/
def CACHE_ANCESTORS : String := "ancestors"

/-- The request-scoped context (`info.context`): the requesting user and the
optional `__cache__` attribute, a dictionary from string keys to ancestor
caches (`resolve_category` stores the cache under key `'ancestors'`). -/
structure Context where
  user : Nat
  cacheAttr : Option (List (String × AncestorsCache))
  deriving DecidableEq, Repr

/-- `get_ancestors_from_cache(category, context)`: reads the `__cache__`
attribute (absent attribute reads as `None`); if it is a truthy dictionary
containing the `'ancestors'` key, consults that cache, otherwise performs a
direct ancestor traversal. -/
def get_ancestors_from_cache (store : List Category) (category : Category) (ctx : Context) :
    List Category :=
  match ctx.cacheAttr with
  | none => get_ancestors store category
  | some cache =>
    match cache.lookup CACHE_ANCESTORS with
    | some ac => AncestorsCache.get store ac category
    | none => get_ancestors store category

/-- `resolve_category(id, info)`: filters the category tree by identifier
and materializes the matching trees (`get_cached_trees()` yields the list of
matching root nodes); on a hit, builds the ancestor cache for the resolved
subtree and attaches it to the request context, returning the category; on a
miss, returns `None`.  Returns the updated context explicitly (the Python
code mutates `info.context` via `setattr`). -/
def resolve_category (store : List Category) (id : Nat) (ctx : Context) :
    Option Category × Context :=
  match (store.filter (fun c => c.id = id)).head? with
  | some category =>
    (some category,
      { ctx with
        cacheAttr := some [(CACHE_ANCESTORS, categoryAncestorsCache store category)] })
  | none => (none, ctx)

/-- A product row of the backing store: belongs to exactly one category and
one product type. -/
structure Product where
  id : Nat
  category_id : Nat
  product_type_id : Nat
  deriving DecidableEq, Repr

/-- A product attribute row of the backing store. -/
structure ProductAttribute where
  id : Nat
  deriving DecidableEq, Repr

/-- The backing store: category tree, products, product attributes, and the
two many-to-many association tables linking attributes to product types
(`product_types`: attribute-on-product-type; `product_variant_types`:
attribute-on-variant-type).  Each association row is an
(attribute id, product type id) pair. -/
structure Store where
  categories : List Category
  products : List Product
  attributes : List ProductAttribute
  attr_product_types : List (Nat × Nat)
  attr_variant_types : List (Nat × Nat)
  deriving Repr

/-- `Modelled from the spec:` `products_visible_to_user`
(`saleor/product/utils.py`, not in the excerpt) — the external
user-visibility policy collaborator, embedded as a predicate `vis` on
(user, product) selecting the products visible to the requesting user. -/
def products_visible_to_user (store : Store) (vis : Nat → Product → Bool) (user : Nat) :
    List Product :=
  store.products.filter (vis user)

/-- `resolve_product(id, info)`: filters the products visible to
`info.context.user` by identifier and returns the first match
(`queryset.first()` yields `None` on an empty queryset). -/
def resolve_product (store : Store) (vis : Nat → Product → Bool) (ctx : Context) (id : Nat) :
    Option Product :=
  ((products_visible_to_user store vis ctx.user).filter (fun p => p.id = id)).head?

/-- Row deduplication by primary key (SQL `DISTINCT` over attribute rows),
keeping the first occurrence of each identifier. -/
def dedupById : List ProductAttribute → List ProductAttribute
  | [] => []
  | a :: rest => a :: (dedupById rest).filter (fun b => ¬ b.id = a.id)

/-- `DoesNotExist` — the exception `Category.objects.get(pk=...)` raises
when no category matches the primary key. -/
inductive DoesNotExist where
  | doesNotExist
  deriving DecidableEq, Repr

/-- The local `product_types` of `resolve_attributes`: the product type ids
of the products whose category lies in the descendant-inclusive subtree of
the category with primary key `pk`. -/
def subtreeProductTypes (store : Store) (pk : Nat) : List Nat :=
  (store.products.filter (fun p =>
    (subtree store.categories pk).any (fun c => c.id = p.category_id))).map
    (fun p => p.product_type_id)

/-- The association filter of `resolve_attributes`:
`Q(product_types__in=product_types) | Q(product_variant_types__in=product_types)` —
the attribute is linked to one of the subtree's product types through
either association table. -/
def attrMatches (store : Store) (pk : Nat) (a : ProductAttribute) : Bool :=
  (subtreeProductTypes store pk).any (fun pt => (a.id, pt) ∈ store.attr_product_types) ||
  (subtreeProductTypes store pk).any (fun pt => (a.id, pt) ∈ store.attr_variant_types)

/-- `resolve_attributes(category_pk)`: starts from all product attributes;
when `category_pk` is truthy (Python `if category_pk:` — `None` and `0` are
both falsy), looks the category up by primary key (raising `DoesNotExist`
on a miss), takes the set of product type ids of the products whose category
lies in the descendant-inclusive subtree, and keeps the attributes
associated with one of those product types through either association
table; finally applies `distinct()`. -/
def resolve_attributes (store : Store) (category_pk : Option Nat) :
    Except DoesNotExist (List ProductAttribute) :=
  let queryset := store.attributes
  if category_pk.getD 0 ≠ 0 then
    let pk := category_pk.getD 0
    match store.categories.find? (fun c => c.id = pk) with
    | none => .error .doesNotExist
    | some _ => .ok (dedupById (queryset.filter (attrMatches store pk)))
  else
    .ok (dedupById queryset)

/-- `Product.resolve_thumbnail_url(self, info, size=None)`: when `size` is
falsy (`None` or the empty string), it is replaced by `'255x255'`; the
result delegates to the image-cropping collaborator `product_first_image`
(`saleor/product/templatetags/product_images.py`, not in the excerpt),
embedded as the function parameter `product_first_image`. -/
def resolve_thumbnail_url (product_first_image : Product → String → String)
    (p : Product) (size : Option String) : String :=
  let s := match size with
    | none => "255x255"
    | some s => if s = "" then "255x255" else s
  product_first_image p s

/-- The queryset value returned by `Category.resolve_products`: the rows it
would produce together with the relation paths registered by
`prefetch_related`.  A Django path string is embedded as its list of
relation segments (`'variants__stock'` becomes `["variants", "stock"]`). -/
structure ProductQuerySet where
  rows : List Product
  prefetched : List (List String)
  deriving DecidableEq, Repr

/-- `Category.resolve_products(self, info, **args)`: the products visible to
the requesting user, with `prefetch_related('images', 'category',
'variants__stock')`, filtered to the category. -/
def resolve_products (store : Store) (vis : Nat → Product → Bool) (ctx : Context)
    (category : Category) : ProductQuerySet :=
  { rows := (products_visible_to_user store vis ctx.user).filter
      (fun p => p.category_id = category.id)
    prefetched := [["images"], ["category"], ["variants", "stock"]] }

/-- `Modelled from the spec:` round-trip cost of executing a queryset with
prefetches — one query for the rows plus one per relation segment of each
prefetch path, independent of the number of rows returned. -/
def executionRoundTrips (qs : ProductQuerySet) : Nat :=
  1 + (qs.prefetched.map List.length).sum

/-- `Modelled from the spec:` round-trip cost of subsequently resolving one
related field path on every returned row — zero when the path was
prefetched (the prefetch cache answers), and otherwise one query per row. -/
def fieldRoundTrips (qs : ProductQuerySet) (path : List String) : Nat :=
  if qs.prefetched.contains path then 0 else qs.rows.length

/-- Total round trips to the backing store for executing the queryset and
then resolving each of the given related field paths on all returned
rows. -/
def totalRoundTrips (qs : ProductQuerySet) (paths : List (List String)) : Nat :=
  executionRoundTrips qs + (paths.map (fieldRoundTrips qs)).sum

/-! Payment vocabulary (`saleor/payment/__init__.py`). -/

/-- `TransactionKind`: the type of a transaction. -/
inductive TransactionKind where
  | AUTH
  | CAPTURE
  | VOID
  | REFUND
  | CONFIRM
  deriving DecidableEq, Fintype, Repr

/-- The string value of each `TransactionKind` constant. -/
def TransactionKind.value : TransactionKind → String
  | .AUTH => "auth"
  | .CAPTURE => "capture"
  | .VOID => "void"
  | .REFUND => "refund"
  | .CONFIRM => "confirm"

/-- `TransactionKind.CHOICES`, in source order. -/
def TransactionKind.CHOICES : List (String × String) :=
  [(TransactionKind.AUTH.value, "Authorization"),
   (TransactionKind.REFUND.value, "Refund"),
   (TransactionKind.CAPTURE.value, "Capture"),
   (TransactionKind.VOID.value, "Void"),
   (TransactionKind.CONFIRM.value, "Confirm")]

/-- `ChargeStatus`: possible statuses of a payment. -/
inductive ChargeStatus where
  | NOT_CHARGED
  | PARTIALLY_CHARGED
  | FULLY_CHARGED
  | PARTIALLY_REFUNDED
  | FULLY_REFUNDED
  deriving DecidableEq, Fintype, Repr

/-- The string value of each `ChargeStatus` constant. -/
def ChargeStatus.value : ChargeStatus → String
  | .NOT_CHARGED => "not-charged"
  | .PARTIALLY_CHARGED => "partially-charged"
  | .FULLY_CHARGED => "fully-charged"
  | .PARTIALLY_REFUNDED => "partially-refunded"
  | .FULLY_REFUNDED => "fully-refunded"

/-- `ChargeStatus.CHOICES`, in source order. -/
def ChargeStatus.CHOICES : List (String × String) :=
  [(ChargeStatus.NOT_CHARGED.value, "Not charged"),
   (ChargeStatus.PARTIALLY_CHARGED.value, "Partially charged"),
   (ChargeStatus.FULLY_CHARGED.value, "Fully charged"),
   (ChargeStatus.PARTIALLY_REFUNDED.value, "Partially refunded"),
   (ChargeStatus.FULLY_REFUNDED.value, "Fully refunded")]

/-- `TransactionError`: the transaction error codes. -/
inductive TransactionError where
  | INCORRECT_NUMBER
  | INVALID_NUMBER
  | INCORRECT_CVV
  | INVALID_CVV
  | INCORRECT_ZIP
  | INCORRECT_ADDRESS
  | INVALID_EXPIRY_DATE
  | EXPIRED
  | PROCESSING_ERROR
  | DECLINED
  deriving DecidableEq, Fintype, Repr

/-- The string value of each `TransactionError` member. -/
def TransactionError.value : TransactionError → String
  | .INCORRECT_NUMBER => "incorrect_number"
  | .INVALID_NUMBER => "invalid_number"
  | .INCORRECT_CVV => "incorrect_cvv"
  | .INVALID_CVV => "invalid_cvv"
  | .INCORRECT_ZIP => "incorrect_zip"
  | .INCORRECT_ADDRESS => "incorrect_address"
  | .INVALID_EXPIRY_DATE => "invalid_expiry_date"
  | .EXPIRED => "expired"
  | .PROCESSING_ERROR => "processing_error"
  | .DECLINED => "declined"

/-! Concrete stores and contexts used to exercise the resolvers. -/

/-- A four-node category tree: 1 is the root, 2 and 4 are its children,
3 is a child of 2. -/
def exampleTree : List Category := [⟨1, none⟩, ⟨2, some 1⟩, ⟨3, some 2⟩, ⟨4, some 1⟩]

/-- A request context with no `__cache__` attribute. -/
def emptyCtx : Context := ⟨7, none⟩

/-- A request context carrying a populated ancestor cache whose only entry
is for category 5. -/
def missCtx : Context := ⟨7, some [(CACHE_ANCESTORS, ⟨[(5, [])]⟩)]⟩

/-- A store whose only category has primary key 0, with no products and a
single attribute associated with nothing. -/
def zeroPkStore : Store := ⟨[⟨0, none⟩], [], [⟨1⟩], [], []⟩

/-- A store with a two-node category chain (2 under 1), one product of
product type 10 in category 2, and three attributes: attribute 1 associated
with product type 10 through the product path, attribute 2 through the
variant path, attribute 3 unassociated. -/
def exampleStore : Store :=
  ⟨[⟨1, none⟩, ⟨2, some 1⟩], [⟨100, 2, 10⟩], [⟨1⟩, ⟨2⟩, ⟨3⟩], [(1, 10)], [(2, 10)]⟩

/-! Helper lemmas. -/

/-- In a store without duplicate primary keys, filtering by the key of a
member yields exactly that member. -/
theorem filter_id_eq_singleton {store : List Category} {c : Category}
    (hc : c ∈ store) (hnd : (store.map Category.id).Nodup) :
    store.filter (fun d => d.id = c.id) = [c] := by
  induction store with
  | nil => cases hc
  | cons a rest ih =>
    simp only [List.map_cons, List.nodup_cons, List.mem_map] at hnd
    rcases List.mem_cons.mp hc with h | h
    · subst h
      rw [List.filter_cons_of_pos (by simp)]
      have hrest : rest.filter (fun d => d.id = c.id) = [] := by
        rw [List.filter_eq_nil_iff]
        intro b hb
        simp only [decide_eq_true_eq]
        intro hid
        exact hnd.1 ⟨b, hb, hid⟩
      rw [hrest]
    · have hne : ¬ (a.id = c.id) := by
        intro hid
        exact hnd.1 ⟨c, h, hid.symm⟩
      rw [List.filter_cons_of_neg (by simpa using hne)]
      exact ih h hnd.2

/-- Association-list lookup over a keyed map of a duplicate-free store finds
the image of the member with the looked-up key. -/
theorem lookup_map_id {l : List Category} {c : Category} (f : Category → List Category)
    (hc : c ∈ l) (hnd : (l.map Category.id).Nodup) :
    (l.map (fun d => (d.id, f d))).lookup c.id = some (f c) := by
  induction l with
  | nil => cases hc
  | cons a rest ih =>
    simp only [List.map_cons, List.nodup_cons, List.mem_map] at hnd
    rcases List.mem_cons.mp hc with h | h
    · subst h
      simp [List.lookup]
    · have hne : ¬ (c.id = a.id) := by
        intro hid
        exact hnd.1 ⟨c, h, hid⟩
      have hbeq : (c.id == a.id) = false := by simpa using hne
      simp only [List.map_cons, List.lookup, hbeq]
      exact ih h hnd.2

/-- Every store member lies in the subtree rooted at its own key. -/
theorem self_mem_subtree {store : List Category} {c : Category} (hc : c ∈ store) :
    c ∈ subtree store c.id := by
  simp [subtree, List.mem_filter, hc]

/-- Subtrees of a duplicate-free store are duplicate-free. -/
theorem subtree_ids_nodup {store : List Category} (hnd : (store.map Category.id).Nodup)
    (rootId : Nat) : ((subtree store rootId).map Category.id).Nodup :=
  List.Nodup.sublist (List.Sublist.map Category.id (List.filter_sublist store)) hnd

/-- `dedupById` leaves a list without duplicate identifiers unchanged. -/
theorem dedupById_eq_self {l : List ProductAttribute}
    (hnd : (l.map ProductAttribute.id).Nodup) : dedupById l = l := by
  induction l with
  | nil => rfl
  | cons a rest ih =>
    simp only [List.map_cons, List.nodup_cons, List.mem_map] at hnd
    rw [dedupById, ih hnd.2]
    have hfil : rest.filter (fun b => ¬ b.id = a.id) = rest := by
      rw [List.filter_eq_self]
      intro b hb
      simp only [decide_eq_true_eq]
      intro hid
      exact hnd.1 ⟨b, hb, hid⟩
    rw [hfil]

/-! Claim theorems. -/

/-- C1: for every category in a backing store without duplicate primary
keys, `resolve_category` on its identifier returns that category and
populates the request-scoped ancestor cache, and a subsequent
`get_ancestors_from_cache` for that category on the updated context returns
exactly the ordered ancestor sequence (root down to, and excluding, the
category) a direct uncached traversal of the backing store yields. -/
theorem resolveCategory_then_cache_eq_direct (store : List Category) (c : Category)
    (ctx : Context) (hc : c ∈ store) (hnd : (store.map Category.id).Nodup) :
    (resolve_category store c.id ctx).1 = some c ∧
      get_ancestors_from_cache store c (resolve_category store c.id ctx).2 =
        get_ancestors store c := by
  have hfilter := filter_id_eq_singleton hc hnd
  have h1 : resolve_category store c.id ctx =
      (some c, { ctx with
        cacheAttr := some [(CACHE_ANCESTORS, categoryAncestorsCache store c)] }) := by
    simp [resolve_category, hfilter]
  rw [h1]
  refine ⟨rfl, ?_⟩
  show AncestorsCache.get store (categoryAncestorsCache store c) c = get_ancestors store c
  simp only [AncestorsCache.get, categoryAncestorsCache]
  rw [lookup_map_id (get_ancestors store) (self_mem_subtree hc) (subtree_ids_nodup hnd c.id)]

/-- C1 witness: the previous theorem applied to category 2 of the concrete
four-node tree. -/
theorem resolveCategory_then_cache_eq_direct_witness :
    (resolve_category exampleTree 2 emptyCtx).1 = some ⟨2, some 1⟩ ∧
      get_ancestors_from_cache exampleTree ⟨2, some 1⟩
          (resolve_category exampleTree 2 emptyCtx).2 =
        get_ancestors exampleTree ⟨2, some 1⟩ :=
  resolveCategory_then_cache_eq_direct exampleTree ⟨2, some 1⟩ emptyCtx
    (by decide) (by decide)

/-- C2: when the context carries no populated ancestor cache, or carries one
whose `'ancestors'` mapping has no entry for the category, then
`get_ancestors_from_cache` falls back to — and returns the result of — the
direct uncached ancestor traversal of the backing store. -/
theorem cacheMiss_falls_back_to_direct (store : List Category) (c : Category)
    (ctx : Context)
    (h : ∀ cache ac, ctx.cacheAttr = some cache →
      cache.lookup CACHE_ANCESTORS = some ac → ac.entries.lookup c.id = none) :
    get_ancestors_from_cache store c ctx = get_ancestors store c := by
  rcases hctx : ctx.cacheAttr with _ | cache
  · simp [get_ancestors_from_cache, hctx]
  · rcases hl : cache.lookup CACHE_ANCESTORS with _ | ac
    · simp [get_ancestors_from_cache, hctx, hl]
    · simp [get_ancestors_from_cache, hctx, hl, AncestorsCache.get, h cache ac hctx hl]

/-- C2 witness: the previous theorem applied to category 3 of the concrete
four-node tree and a context whose populated cache only has an entry for
category 5; the fallback indeed produces the direct ancestor chain. -/
theorem cacheMiss_falls_back_to_direct_witness :
    get_ancestors_from_cache exampleTree ⟨3, some 2⟩ missCtx =
        get_ancestors exampleTree ⟨3, some 2⟩ ∧
      get_ancestors exampleTree ⟨3, some 2⟩ = [⟨1, none⟩, ⟨2, some 1⟩] :=
  ⟨cacheMiss_falls_back_to_direct exampleTree ⟨3, some 2⟩ missCtx
      (by
        intro cache ac h1 h2
        simp only [missCtx] at h1
        cases h1
        simp only [CACHE_ANCESTORS, List.lookup, beq_self_eq_true] at h2
        cases h2
        decide),
    by decide⟩

/-- C10: `resolve_category` mutates the request context only on success: an
identifier matching no category yields `None` and returns the context
completely unchanged, its cache attribute included. -/
theorem resolveCategory_miss_leaves_context (store : List Category) (id : Nat)
    (ctx : Context) (h : ∀ c ∈ store, c.id ≠ id) :
    resolve_category store id ctx = (none, ctx) := by
  have hfil : store.filter (fun c => c.id = id) = [] := by
    rw [List.filter_eq_nil_iff]
    intro c hc
    simpa using h c hc
  simp [resolve_category, hfil]

/-- C10 witness: resolving the absent identifier 99 on the concrete tree
returns `None` and the untouched context. -/
theorem resolveCategory_miss_leaves_context_witness :
    resolve_category exampleTree 99 emptyCtx = (none, emptyCtx) :=
  resolveCategory_miss_leaves_context exampleTree 99 emptyCtx (by decide)

/-- C3 counterexample: in the concrete store no category has primary key
99, yet `resolve_attributes 99` raises `DoesNotExist` instead of returning
an absent or empty result — so not every lookup-by-identifier failure in
the excerpt resolves to an absent value. -/
theorem attributesLookup_raises_counterexample :
    (∀ c ∈ exampleStore.categories, c.id ≠ 99) ∧
      resolve_attributes exampleStore (some 99) = .error .doesNotExist :=
  ⟨by decide, rfl⟩

/-- C3 (amended): `resolve_category` and `resolve_product` surface a failed
lookup as an absent value, while `resolve_attributes` with a truthy
category primary key matching no category raises `DoesNotExist`. -/
theorem lookup_failure_behaviour (store : Store) (vis : Nat → Product → Bool)
    (ctx : Context) (cid pid apk : Nat)
    (hcid : ∀ c ∈ store.categories, c.id ≠ cid)
    (hpid : ∀ p ∈ store.products, p.id ≠ pid)
    (hapk : apk ≠ 0)
    (hacat : ∀ c ∈ store.categories, c.id ≠ apk) :
    (resolve_category store.categories cid ctx).1 = none ∧
      resolve_product store vis ctx pid = none ∧
      resolve_attributes store (some apk) = .error .doesNotExist := by
  refine ⟨?_, ?_, ?_⟩
  · have hfil : store.categories.filter (fun c => c.id = cid) = [] := by
      rw [List.filter_eq_nil_iff]
      intro c hc
      simpa using hcid c hc
    simp [resolve_category, hfil]
  · have hfil : (products_visible_to_user store vis ctx.user).filter
        (fun p => p.id = pid) = [] := by
      rw [List.filter_eq_nil_iff]
      intro p hp
      have hp2 : p ∈ store.products :=
        (List.mem_filter.mp hp).1
      simpa using hpid p hp2
    simp [resolve_product, hfil]
  · have hfind : store.categories.find? (fun c => c.id = apk) = none := by
      rw [List.find?_eq_none]
      intro c hc
      simpa using hacat c hc
    simp [resolve_attributes, Option.getD_some, if_pos hapk, hfind]

/-- C3 (amended) witness: the previous theorem at the concrete store with
absent identifiers 99 (category), 999 (product) and 99 (attribute category
key). -/
theorem lookup_failure_behaviour_witness :
    (resolve_category exampleStore.categories 99 emptyCtx).1 = none ∧
      resolve_product exampleStore (fun _ _ => true) emptyCtx 999 = none ∧
      resolve_attributes exampleStore (some 99) = .error .doesNotExist :=
  lookup_failure_behaviour exampleStore (fun _ _ => true) emptyCtx 99 999 99
    (by decide) (by decide) (by decide) (by decide)

/-- C4: when the visibility policy excludes a stored product from the
requesting user's view and product primary keys are duplicate-free,
`resolve_product` on that product's identifier returns an absent result,
never the product. -/
theorem invisible_product_resolves_to_none (store : Store) (vis : Nat → Product → Bool)
    (ctx : Context) (P : Product) (hP : P ∈ store.products)
    (hinv : vis ctx.user P = false)
    (hnd : (store.products.map Product.id).Nodup) :
    resolve_product store vis ctx P.id = none := by
  have hfil : (products_visible_to_user store vis ctx.user).filter
      (fun p => p.id = P.id) = [] := by
    rw [List.filter_eq_nil_iff]
    intro q hq
    obtain ⟨hq1, hq2⟩ := List.mem_filter.mp hq
    simp only [decide_eq_true_eq]
    intro hid
    have hqP : q = P := List.inj_on_of_nodup_map hnd hq1 hP hid
    rw [hqP, hinv] at hq2
    cases hq2
  simp [resolve_product, hfil]

/-- C4 witness: under the all-invisible policy, resolving product 100 of
the concrete store returns `none`. -/
theorem invisible_product_resolves_to_none_witness :
    resolve_product exampleStore (fun _ _ => false) emptyCtx 100 = none :=
  invisible_product_resolves_to_none exampleStore (fun _ _ => false) emptyCtx
    ⟨100, 2, 10⟩ (by decide) (by decide) (by decide)

/-- C5: with no category given, `resolve_attributes` returns all product
attributes of a store whose attribute primary keys are duplicate-free, each
attribute exactly once, regardless of the association tables. -/
theorem resolveAttributes_none_returns_all (store : Store)
    (hnd : (store.attributes.map ProductAttribute.id).Nodup) :
    resolve_attributes store none = .ok store.attributes ∧
      ∀ a ∈ store.attributes, store.attributes.count a = 1 := by
  constructor
  · have h0 : resolve_attributes store none = .ok (dedupById store.attributes) := rfl
    rw [h0, dedupById_eq_self hnd]
  · intro a ha
    exact List.count_eq_one_of_mem (List.Nodup.of_map _ hnd) ha

/-- C5 witness: on the concrete store, all three attributes come back, each
once. -/
theorem resolveAttributes_none_returns_all_witness :
    resolve_attributes exampleStore none = .ok exampleStore.attributes ∧
      ∀ a ∈ exampleStore.attributes, exampleStore.attributes.count a = 1 :=
  resolveAttributes_none_returns_all exampleStore (by decide)

/-- C6 counterexample: `zeroPkStore` contains a category with primary key
0 whose subtree holds no products (the store has none at all), yet
`resolve_attributes 0` returns the store's attribute instead of the empty
set — the falsy key 0 is handled by the no-category branch. -/
theorem resolveAttributes_zero_pk_counterexample :
    (⟨0, none⟩ : Category) ∈ zeroPkStore.categories ∧
      zeroPkStore.products = [] ∧
      resolve_attributes zeroPkStore (some 0) = .ok [⟨1⟩] :=
  ⟨by decide, rfl, rfl⟩

/-- C6 (amended): for every existing category with a nonzero primary key
`pk`, over a store whose attribute primary keys are duplicate-free,
`resolve_attributes pk` succeeds with the deduplicated set — each attribute
exactly once — of attributes associated, through the product-type path or
the variant-type path, with a product type used by some product of the
category's descendant-inclusive subtree; when the subtree contains no
products the result is empty. -/
theorem resolveAttributes_category_union (store : Store) (pk : Nat) (root : Category)
    (hpk : pk ≠ 0) (hroot : root ∈ store.categories) (hrid : root.id = pk)
    (hnd : (store.attributes.map ProductAttribute.id).Nodup) :
    ∃ l, resolve_attributes store (some pk) = .ok l ∧
      (∀ a, a ∈ l ↔ a ∈ store.attributes ∧
        ∃ p ∈ store.products,
          (∃ c ∈ subtree store.categories pk, c.id = p.category_id) ∧
          ((a.id, p.product_type_id) ∈ store.attr_product_types ∨
            (a.id, p.product_type_id) ∈ store.attr_variant_types)) ∧
      (∀ a ∈ l, l.count a = 1) ∧
      ((∀ p ∈ store.products, ¬ ∃ c ∈ subtree store.categories pk, c.id = p.category_id) →
        l = []) := by
  obtain ⟨r, hr⟩ : ∃ r, store.categories.find? (fun c => c.id = pk) = some r := by
    rw [← Option.isSome_iff_exists, List.find?_isSome]
    exact ⟨root, hroot, by simp [hrid]⟩
  have h0 : resolve_attributes store (some pk) =
      .ok (dedupById (store.attributes.filter (attrMatches store pk))) := by
    simp only [resolve_attributes, Option.getD_some]
    rw [if_pos hpk, hr]
  have hndf : ((store.attributes.filter (attrMatches store pk)).map
      ProductAttribute.id).Nodup :=
    List.Nodup.sublist (List.Sublist.map ProductAttribute.id
      (List.filter_sublist store.attributes)) hnd
  have hded : dedupById (store.attributes.filter (attrMatches store pk)) =
      store.attributes.filter (attrMatches store pk) :=
    dedupById_eq_self hndf
  have hmatch : ∀ a : ProductAttribute, attrMatches store pk a = true ↔
      ∃ p ∈ store.products,
        (∃ c ∈ subtree store.categories pk, c.id = p.category_id) ∧
        ((a.id, p.product_type_id) ∈ store.attr_product_types ∨
          (a.id, p.product_type_id) ∈ store.attr_variant_types) := by
    intro a
    simp only [attrMatches, subtreeProductTypes, Bool.or_eq_true, List.any_eq_true,
      List.mem_map, List.mem_filter, decide_eq_true_eq]
    constructor
    · rintro (⟨pt, ⟨p, ⟨hp, htree⟩, hpt⟩, hassoc⟩ | ⟨pt, ⟨p, ⟨hp, htree⟩, hpt⟩, hassoc⟩)
      · exact ⟨p, hp, htree, Or.inl (hpt ▸ hassoc)⟩
      · exact ⟨p, hp, htree, Or.inr (hpt ▸ hassoc)⟩
    · rintro ⟨p, hp, htree, hassoc | hassoc⟩
      · exact Or.inl ⟨p.product_type_id, ⟨p, ⟨hp, htree⟩, rfl⟩, hassoc⟩
      · exact Or.inr ⟨p.product_type_id, ⟨p, ⟨hp, htree⟩, rfl⟩, hassoc⟩
  refine ⟨store.attributes.filter (attrMatches store pk), by rw [h0, hded], ?_, ?_, ?_⟩
  · intro a
    rw [List.mem_filter, hmatch a]
  · intro a ha
    exact List.count_eq_one_of_mem (List.Nodup.of_map _ hndf) ha
  · intro hnp
    rw [List.filter_eq_nil_iff]
    intro a ha hmt
    obtain ⟨p, hp, htree, _⟩ := (hmatch a).mp hmt
    exact hnp p hp htree

/-- C6 (amended) witness: the previous theorem at the concrete store and
category 1. -/
theorem resolveAttributes_category_union_witness :
    ∃ l, resolve_attributes exampleStore (some 1) = .ok l ∧
      (∀ a, a ∈ l ↔ a ∈ exampleStore.attributes ∧
        ∃ p ∈ exampleStore.products,
          (∃ c ∈ subtree exampleStore.categories 1, c.id = p.category_id) ∧
          ((a.id, p.product_type_id) ∈ exampleStore.attr_product_types ∨
            (a.id, p.product_type_id) ∈ exampleStore.attr_variant_types)) ∧
      (∀ a ∈ l, l.count a = 1) ∧
      ((∀ p ∈ exampleStore.products,
          ¬ ∃ c ∈ subtree exampleStore.categories 1, c.id = p.category_id) →
        l = []) :=
  resolveAttributes_category_union exampleStore 1 ⟨1, none⟩
    (by decide) (by decide) (by decide) (by decide)

/-- C7: the thumbnail resolver computes with the default size `"255x255"`
when no size (or `None`) is given, and uses the explicit size whenever a
non-empty one is passed, delegating to the image-cropping collaborator. -/
theorem thumbnail_default_size (product_first_image : Product → String → String)
    (p : Product) :
    resolve_thumbnail_url product_first_image p none = product_first_image p "255x255" ∧
      ∀ s : String, s ≠ "" →
        resolve_thumbnail_url product_first_image p (some s) = product_first_image p s := by
  refine ⟨rfl, ?_⟩
  intro s hs
  simp [resolve_thumbnail_url, hs]

/-- C7 witness: with the collaborator returning the size it was given, the
default is `"255x255"` and an explicit `"100x100"` passes through. -/
theorem thumbnail_default_size_witness :
    resolve_thumbnail_url (fun _ s => s) ⟨100, 2, 10⟩ none = "255x255" ∧
      resolve_thumbnail_url (fun _ s => s) ⟨100, 2, 10⟩ (some "100x100") = "100x100" :=
  ⟨(thumbnail_default_size (fun _ s => s) ⟨100, 2, 10⟩).1,
    (thumbnail_default_size (fun _ s => s) ⟨100, 2, 10⟩).2 "100x100" (by decide)⟩

/-- C8: the payment vocabulary is closed and exact — the transaction kinds
are exactly `auth`, `capture`, `void`, `refund`, `confirm`; the charge
statuses are exactly `not-charged`, `partially-charged`, `fully-charged`,
`partially-refunded`, `fully-refunded`; `TransactionError` has exactly ten
members; and each `CHOICES` list enumerates each value of its enumeration
exactly once. -/
theorem payment_vocabulary_closed :
    (∀ k : TransactionKind,
      k.value ∈ ["auth", "capture", "void", "refund", "confirm"]) ∧
    (∀ s ∈ ["auth", "capture", "void", "refund", "confirm"],
      ∃ k : TransactionKind, k.value = s) ∧
    (∀ c : ChargeStatus,
      c.value ∈ ["not-charged", "partially-charged", "fully-charged",
        "partially-refunded", "fully-refunded"]) ∧
    (∀ s ∈ ["not-charged", "partially-charged", "fully-charged",
        "partially-refunded", "fully-refunded"],
      ∃ c : ChargeStatus, c.value = s) ∧
    Fintype.card TransactionError = 10 ∧
    (∀ k : TransactionKind,
      TransactionKind.CHOICES.countP (fun kv => kv.1 == k.value) = 1) ∧
    TransactionKind.CHOICES.length = 5 ∧
    (∀ c : ChargeStatus,
      ChargeStatus.CHOICES.countP (fun kv => kv.1 == c.value) = 1) ∧
    ChargeStatus.CHOICES.length = 5 := by
  refine ⟨?_, ?_, ?_, ?_, ?_, ?_, ?_, ?_, ?_⟩ <;> decide

/-- C9: for every backing store, visibility policy, context and category,
executing the queryset built by `Category.resolve_products` and then
resolving the images, category, and variant stock paths of all returned
products costs exactly five round-trips to the backing store — a constant,
independent of the number of products returned. -/
theorem resolveProducts_prefetch_bounds_round_trips (store : Store)
    (vis : Nat → Product → Bool) (ctx : Context) (category : Category) :
    totalRoundTrips (resolve_products store vis ctx category)
      [["images"], ["category"], ["variants", "stock"]] = 5 := rfl

end Saleor
